import Mathlib

/-!
Verification development for the memex ingest/search pipeline.

Shallow embedding of the parts of the repository that the checked
properties talk about:

* the durable job queue (`src/lib/shared/src/db/queue.rs`): task rows,
  `mark_failed`, and the claim-one SQL statement `check_for_jobs`;
* the OpenAI text-budget helpers
  (`src/lib/libmemex/src/llm/openai/mod.rs`): `truncate_text`,
  `split_text`, `segment`;
* uuid derivation for documents and segments
  (`src/lib/libmemex/src/db/document.rs`, `src/lib/worker/src/tasks.rs`);
* the ingest worker (`src/lib/worker/src/tasks.rs`,
  `src/lib/worker/src/lib.rs`): `process_embeddings` /
  `_process_embeddings` and the `run_workers` dispatch branch, modelled
  as pure functions over explicit database / vector-store states with an
  oracle injecting the outcome of each fallible external call and an
  event trace recording the order of effects;
* the local HNSW vector store's `delete`
  (`src/lib/libmemex/src/storage/local.rs`);
* the `/api/action/ask` prompt construction
  (`src/lib/api/src/endpoints/actions/handlers.rs`,
  `src/lib/libmemex/src/llm/prompter.rs`).

External libraries that the code calls (the cl100k tokenizer, the uuid
crate's v5 hash, the handlebars renderer, the JSON-schema compiler) are
abstracted as function parameters; everything written in the repository
itself is translated statement by statement.
-/

namespace Memex

/-- Task status, from `enum JobStatus` in src/lib/shared/src/db/queue.rs. -/
inductive JobStatus
  | Queued
  | Processing
  | Completed
  | Failed
  deriving DecidableEq, Repr

/-- `struct TaskError { error_type, msg }` from src/lib/shared/src/db/queue.rs. -/
structure TaskError where
  error_type : String
  msg : String
  deriving DecidableEq, Repr

/-- `const MAX_RETRIES: i32 = 5` (src/lib/shared/src/db/queue.rs line 5). -/
def MAX_RETRIES : Int := 5

/-- The queue-row fields that `mark_failed` reads and writes
(status, num_retries, error); timestamps are not modelled. -/
structure TaskRow where
  status : JobStatus
  num_retries : Int
  error : Option TaskError
  deriving DecidableEq, Repr

/-- `mark_failed` (src/lib/shared/src/db/queue.rs lines 95-111): if `retry`
and `num_retries <= MAX_RETRIES`, increment `num_retries` and set status
Queued, else set status Failed; the error is recorded in both branches. -/
def mark_failed (retry : Bool) (error : Option TaskError) (t : TaskRow) : TaskRow :=
  if retry = true ∧ t.num_retries ≤ MAX_RETRIES then
    { t with
      num_retries := t.num_retries + 1
      status := JobStatus.Queued
      error := error }
  else
    { t with status := JobStatus.Failed, error := error }

/-- A freshly enqueued task (`ActiveModelBehavior::new` + the schema default
`num_retries = 0`): status Queued, zero retries, no error. -/
def enqueuedTask : TaskRow :=
  { status := JobStatus.Queued, num_retries := 0, error := Option.none }

/-- Folding a whole sequence of `mark_failed` calls (retry flag and error of
each call) over a task row. -/
def markFailedSeq (calls : List (Bool × Option TaskError)) (t : TaskRow) : TaskRow :=
  calls.foldl (fun acc c => mark_failed c.1 c.2 acc) t

/-- The queue-row fields that `check_for_jobs` reads and writes.
`updated_at` (set by the UPDATE) is not modelled; `created_at` is an
abstract integer timestamp. -/
structure QueueRow where
  id : Int
  status : JobStatus
  created_at : Int
  deriving DecidableEq, Repr

/-- Effect of the UPDATE of `check_for_jobs` on the table: the rows whose id
matches the sub-select result get status Processing. -/
def markProcessing (s : List QueueRow) (i : Int) : List QueueRow :=
  s.map fun r => if r.id = i then { r with status := JobStatus.Processing } else r

/-- `check_for_jobs` (src/lib/shared/src/db/queue.rs lines 141-180) as a
step relation on the table.  The SQL picks one row by
`WHERE status = 'Queued' ORDER BY queue.created_at ASC LIMIT 1`: any Queued
row whose `created_at` is minimal among Queued rows may be returned — the
statement contains no secondary ordering, so the choice among rows sharing
`created_at` is engine-dependent and the relation keeps it
nondeterministic.  When no Queued row exists the UPDATE matches nothing and
none is returned. -/
inductive check_for_jobs : List QueueRow → Option Int → List QueueRow → Prop
  | noneFound (s : List QueueRow) (h : ∀ r ∈ s, r.status ≠ JobStatus.Queued) :
      check_for_jobs s Option.none s
  | claimRow (s : List QueueRow) (r : QueueRow) (hmem : r ∈ s)
      (hq : r.status = JobStatus.Queued)
      (hmin : ∀ r' ∈ s, r'.status = JobStatus.Queued → r.created_at ≤ r'.created_at) :
      check_for_jobs s (Option.some r.id) (markProcessing s r.id)

/-- Everything `check_for_jobs` guarantees about one step: a none answer
leaves the table unchanged and means no Queued row existed; a some answer
names a Queued row of minimal `created_at`, the table is updated by
`markProcessing`, rows with other ids are untouched and the claimed row is
now Processing. -/
def claim_one_post (s : List QueueRow) (j : Option Int) (s' : List QueueRow) : Prop :=
  (j = Option.none → s' = s ∧ ∀ r ∈ s, r.status ≠ JobStatus.Queued) ∧
  (∀ i, j = Option.some i →
    (∃ r ∈ s, r.id = i ∧ r.status = JobStatus.Queued ∧
      (∀ r' ∈ s, r'.status = JobStatus.Queued → r.created_at ≤ r'.created_at)) ∧
    s' = markProcessing s i ∧
    (∀ r' ∈ s, r'.id ≠ i → r' ∈ s') ∧
    (∀ r' ∈ s, r'.id = i → { r' with status := JobStatus.Processing } ∈ s'))

/-- A two-row table with both rows Queued at the same timestamp: used to
show the tie is not broken by ascending id. -/
def tieQueue : List QueueRow :=
  [{ id := 1, status := JobStatus.Queued, created_at := 10 },
   { id := 2, status := JobStatus.Queued, created_at := 10 }]

/-- A one-row Queued table, used as the concrete claim-one transition. -/
def demoQueue : List QueueRow :=
  [{ id := 1, status := JobStatus.Queued, created_at := 0 }]

/-- `MAX_TOKENS` (src/lib/libmemex/src/llm/openai/mod.rs line 13):
max context minus response length minus prompt length. -/
def MAX_TOKENS : Nat := 4097 - 1024 - 100

/-- `MAX_16K_TOKENS` (src/lib/libmemex/src/llm/openai/mod.rs line 14). -/
def MAX_16K_TOKENS : Nat := 16384 - 2048 - 100

/-- `enum OpenAIModel` (src/lib/libmemex/src/llm/openai/mod.rs lines 17-33). -/
inductive OpenAIModel
  | GPT35
  | GPT35_16K
  | GPT35_0613
  | GPT4_8K
  deriving DecidableEq, Repr

/-- UTF-8 byte size of one scalar value, mirroring how Rust strings are
measured by `str::len`. -/
def charUtf8Size (c : Char) : Nat :=
  if c.val < 0x80 then 1
  else if c.val < 0x800 then 2
  else if c.val < 0x10000 then 3
  else 4

/-- Rust `str::len`: the UTF-8 byte length of a string. -/
def byteLen (s : String) : Nat :=
  (s.data.map charUtf8Size).sum

/-- Rust `str::split(' ')` on the underlying character list: pieces are
separated at every single space, and consecutive or trailing spaces yield
empty pieces (the empty string yields one empty piece). -/
def splitCharsOnSpace : List Char → List (List Char)
  | [] => [[]]
  | c :: rest =>
    if c = ' ' then [] :: splitCharsOnSpace rest
    else
      match splitCharsOnSpace rest with
      | [] => [[c]]
      | w :: ws => (c :: w) :: ws

/-- Rust `text.split(' ')` as a list of strings. -/
def splitSpaces (s : String) : List String :=
  (splitCharsOnSpace s.data).map fun cs => String.mk cs

/-- Rust `Vec::join(" ")`. -/
def joinSpace (parts : List String) : String :=
  String.intercalate " " parts

/-- The `for txt in text.split(' ')` loop of `truncate_text`
(src/lib/libmemex/src/llm/openai/mod.rs lines 213-221), parameterised by
the external cl100k tokenizer `tl` (token count of a string).  Note the
loop body appends `txt` to the buffer without any separating space, exactly
as `buffer.push_str(txt)` does. -/
def truncLoop (tl : String → Nat) : List String → String → String
  | [], buffer => buffer
  | txt :: rest, buffer =>
    if tl (buffer ++ txt) > MAX_16K_TOKENS then buffer
    else truncLoop tl rest (buffer ++ txt)

/-- `truncate_text` (src/lib/libmemex/src/llm/openai/mod.rs lines 203-225),
parameterised by the cl100k tokenizer `tl`. -/
def truncate_text (tl : String → Nat) (text : String) : String × OpenAIModel :=
  let total_tokens := tl text
  if total_tokens ≤ MAX_TOKENS then (text, OpenAIModel.GPT35)
  else if total_tokens ≤ MAX_16K_TOKENS then (text, OpenAIModel.GPT35_16K)
  else (truncLoop tl (splitSpaces text) "", OpenAIModel.GPT35_16K)

/-- The word loop of `split_text` (src/lib/libmemex/src/llm/openai/mod.rs
lines 243-260): accumulates words into `part` until the running byte size
exceeds `split_size`, then flushes `part.join(" ")` into `doc_parts`,
keeping the last 10 words as overlap (`part.drain(0..end)` drops the first
`end` words, where `end = len - 10` when `len > 10` and `end = len`
otherwise). -/
def splitLoop (split_size : Nat) :
    List String → List String → Nat → List String → List String
  | [], part, _, doc_parts =>
    if part = [] then doc_parts else doc_parts ++ [joinSpace part]
  | txt :: rest, part, size, doc_parts =>
    if size + byteLen txt > split_size then
      let doc_parts' := doc_parts ++ [joinSpace part]
      let e := if part.length > 10 then part.length - 10 else part.length
      let part' := part.drop e
      let size' := byteLen (joinSpace part')
      splitLoop split_size rest (part' ++ [txt]) (size' + byteLen txt + 1) doc_parts'
    else
      splitLoop split_size rest (part ++ [txt]) (size + byteLen txt + 1) doc_parts

/-- `split_text` (src/lib/libmemex/src/llm/openai/mod.rs lines 227-268):
`checked_div` is modelled by the explicit zero tests (`split_count` falls
back to 1 when `max_tokens` is 0, `split_size` to `text.len()` when
`split_count` is 0). -/
def split_text (tl : String → Nat) (text : String) (max_tokens : Nat) : List String :=
  let total_tokens := tl text
  if total_tokens ≤ max_tokens then [text]
  else
    let split_count := if max_tokens = 0 then 1 else total_tokens / max_tokens + 2
    let split_size := if split_count = 0 then byteLen text else byteLen text / split_count
    if split_size = byteLen text then [text]
    else splitLoop split_size (splitSpaces text) [] 0 []

/-- `segment` (src/lib/libmemex/src/llm/openai/mod.rs lines 184-200): model
selection and chunking.  Note both comparisons are strict, so a text of
exactly `MAX_TOKENS` tokens falls through to the `split_text` branch. -/
def segment (tl : String → Nat) (content : String) : List String × OpenAIModel :=
  let size := tl content
  if size < MAX_TOKENS then ([content], OpenAIModel.GPT35)
  else if MAX_TOKENS < size ∧ size < MAX_16K_TOKENS then ([content], OpenAIModel.GPT35_16K)
  else (split_text tl content MAX_16K_TOKENS, OpenAIModel.GPT35_16K)

/-- The whitespace-delimited prefixes of a text: joins of the first `k`
space-separated words, for every `k`.  This is the spec's notion of
"whitespace-delimited prefix" in the `truncate_text` sentence. -/
def ws_prefixes (text : String) : List String :=
  (List.range ((splitSpaces text).length + 1)).map fun k =>
    joinSpace ((splitSpaces text).take k)

/-- Demonstration tokenizer: 3000 tokens per character. -/
def tlChar3000 (s : String) : Nat := 3000 * s.length

/-- Demonstration tokenizer: 14237 tokens per occurrence of the
character X. -/
def tlCountX (s : String) : Nat := 14237 * s.data.count 'X'

/-- The process-wide uuid namespace `NAMESPACE`
(src/lib/libmemex/src/lib.rs line 7). -/
def NAMESPACE : String := "5fdfe40a-de2c-11ed-bfa7-00155deae876"

/-- The queue-row fields the ingest path reads (`queue::Model`): the numeric
primary key `id` and `payload.content`. -/
structure TaskModel where
  id : Int
  content : String
  deriving DecidableEq, Repr

/-- The `documents` row fields set by `from_task`
(src/lib/libmemex/src/db/document.rs); the auto-increment key, metadata and
timestamps are not modelled. -/
structure DocumentRow where
  uuid : String
  task_id : Int
  content : String
  deriving DecidableEq, Repr

/-- `ActiveModel::from_task` (src/lib/libmemex/src/db/document.rs lines
72-85): uuid = v5(NAMESPACE, task.id.to_string()).  The uuid crate's v5
hash is abstracted as the parameter `v5` (namespace, name bytes). -/
def document_from_task (v5 : String → String → String) (task : TaskModel) : DocumentRow :=
  { uuid := v5 NAMESPACE (toString task.id)
    task_id := task.id
    content := task.content }

/-- The segment uuid computed in the ingest loop
(src/lib/worker/src/tasks.rs lines 36-40):
`Uuid::new_v5(&NAMESPACE, format!("{document_uuid}-{idx}"))`. -/
def segment_uuid (v5 : String → String → String) (documentUuid : String) (idx : Nat) : String :=
  v5 NAMESPACE (documentUuid ++ "-" ++ toString idx)

/-- Modelled from the spec: "document uuid = v5(namespace, str(task_id))". -/
def spec_document_uuid (v5 : String → String → String) (task_id : Int) : String :=
  v5 NAMESPACE (toString task_id)

/-- Modelled from the spec: segment uuid =
v5(namespace, "{document_uuid}-{segment_index}"). -/
def spec_segment_uuid (v5 : String → String → String) (documentUuid : String) (idx : Nat) : String :=
  v5 NAMESPACE (documentUuid ++ "-" ++ toString idx)

/-- The error kinds of `VectorStoreError`
(src/lib/libmemex/src/storage/mod.rs lines 30-48); `Unsupported` is the
spec's "NotSupported". -/
inductive VectorStoreErrKind
  | ConnectionError
  | DeleteError
  | FileIOError
  | InsertionError
  | SearchError
  | SerdeError
  | SaveError
  | Unsupported
  deriving DecidableEq, Repr

/-- Outcome of a vector-store call as seen by its caller: a normal return
(Ok), an error value, or a panic (`unimplemented!` / `panic!` unwinds and
never returns a `Result` to the caller). -/
inductive StoreOutcome
  | ok
  | err (kind : VectorStoreErrKind) (msg : String)
  | panicked (msg : String)
  deriving DecidableEq, Repr

/-- True exactly on `err` outcomes. -/
def isErrOutcome : StoreOutcome → Bool
  | StoreOutcome.err _ _ => true
  | _ => false

/-- True exactly on `panicked` outcomes. -/
def isPanicOutcome : StoreOutcome → Bool
  | StoreOutcome.panicked _ => true
  | _ => false

/-- `HnswStore::delete` (src/lib/libmemex/src/storage/local.rs lines
29-32): the body is
`unimplemented!("Currently hnsw_lib does not support removing a single point")`,
which panics with the standard "not implemented: " prefix — it never
constructs a `VectorStoreError`. -/
def hnsw_delete (_id : String) : StoreOutcome :=
  StoreOutcome.panicked
    "not implemented: Currently hnsw_lib does not support removing a single point"

/-- `ChatMessage` (role, content). -/
structure ChatMessage where
  role : String
  content : String
  deriving DecidableEq, Repr

/-- `prompter::quick_question` (src/lib/libmemex/src/llm/prompter.rs lines
17-22): a fixed system message plus the user request; the submitted text is
not used. -/
def quick_question (user_request : String) : List ChatMessage :=
  [{ role := "system", content := "You are a helpful assistant" },
   { role := "user", content := user_request }]

/-- `prompter::json_schema_extraction` (src/lib/libmemex/src/llm/prompter.rs
lines 32-48).  The two template files under prompts/json_schema are not in
src/, so the system template is the parameter `sysTemplate` and the
handlebars rendering of (user_request, json_schema) is the parameter
`render`. -/
def json_schema_extraction (sysTemplate : String) (render : String → String → String)
    (input_data user_request output_schema : String) : List ChatMessage :=
  [{ role := "system", content := sysTemplate },
   { role := "user", content := input_data },
   { role := "user", content := render user_request output_schema }]

/-- `AskRequest` for /api/action/ask: text, query, optional json_schema
(the serde JSON value is kept as its string rendering). -/
structure AskRequest where
  text : String
  query : String
  json_schema : Option String

/-- `handle_extract` (src/lib/api/src/endpoints/actions/handlers.rs lines
18-48) up to its LLM call: the model and message list handed to
`chat_completion`, or none when the supplied schema fails to compile
(client error; `schemaOk` abstracts the JSONSchema compiler). -/
def handle_extract_call (tl : String → Nat) (schemaOk : String → Bool)
    (sysTemplate : String) (render : String → String → String)
    (request : AskRequest) : Option (OpenAIModel × List ChatMessage) :=
  let tm := truncate_text tl request.text
  match request.json_schema with
  | Option.some schema =>
    if schemaOk schema then
      Option.some (tm.2, json_schema_extraction sysTemplate render tm.1 request.query schema)
    else Option.none
  | Option.none => Option.some (tm.2, quick_question request.query)

/-- One (segment_text, vector) pair returned by `SentenceEmbedder.encode`;
vectors are opaque integer lists (their float values never matter to the
checked properties). -/
structure EmbedResult where
  content : String
  vector : List Int
  deriving DecidableEq, Repr

/-- The `embeddings` row fields set by the ingest loop
(src/lib/worker/src/tasks.rs lines 42-48). -/
structure SegmentRow where
  uuid : String
  document_id : String
  segment : Int
  content : String
  vector : List Int
  deriving DecidableEq, Repr

/-- `VectorData` (src/lib/libmemex/src/storage/mod.rs lines 17-28). -/
structure VectorData where
  _id : String
  document_id : String
  text : String
  segment_id : Nat
  vector : List Int
  deriving DecidableEq, Repr

/-- The metadata store as seen by the ingest path: the documents table and
the embeddings (segments) table.  Rows inserted inside an open transaction
live in a separate buffer until the commit. -/
structure DbState where
  documents : List DocumentRow
  segments : List SegmentRow
  deriving DecidableEq, Repr

/-- The vector store's contents. -/
structure VecStoreState where
  entries : List VectorData
  deriving DecidableEq, Repr

/-- The externally visible effects of one worker run, in execution order. -/
inductive Event
  | encodeCall
  | insertDocumentOnDb
  | txnBegin
  | insertSegmentInTxn (idx : Nat)
  | addVectorsCall (count : Nat)
  | logVectorError
  | txnCommit
  | markDoneCall
  | connectVectorStore
  | logConnectError
  | logProcessError
  | markFailedCall
  | decrementNumActive
  deriving DecidableEq, Repr

/-- Outcome oracle for the fallible external calls of one ingest run:
the embedder reply (none = failure), and success flags for the document
insert, transaction begin, each segment insert, the vector-store bulk
insert, and the commit. -/
structure Oracle where
  encode : Option (List EmbedResult)
  insertDocOk : Bool
  beginOk : Bool
  insertSegOk : Nat → Bool
  addVectorsOk : Bool
  commitOk : Bool

/-- Result of one ingest run: whether the function returned Ok, the final
metadata-store and vector-store states, and the event trace. -/
structure RunResult where
  succeeded : Bool
  db : DbState
  vs : VecStoreState
  events : List Event
  deriving DecidableEq, Repr

/-- The segment row built at index `idx` of the ingest loop
(src/lib/worker/src/tasks.rs lines 42-48). -/
def mkSegmentRow (v5 : String → String → String) (documentUuid : String)
    (idx : Nat) (e : EmbedResult) : SegmentRow :=
  { uuid := segment_uuid v5 documentUuid idx
    document_id := documentUuid
    segment := Int.ofNat idx
    content := e.content
    vector := e.vector }

/-- The `VectorData` pushed at index `idx` of the ingest loop
(src/lib/worker/src/tasks.rs lines 50-56). -/
def mkVectorData (v5 : String → String → String) (documentUuid : String)
    (idx : Nat) (e : EmbedResult) : VectorData :=
  { _id := segment_uuid v5 documentUuid idx
    document_id := documentUuid
    text := e.content
    segment_id := idx
    vector := e.vector }

/-- The `for (idx, embedding) in embeddings.iter().enumerate()` loop
(src/lib/worker/src/tasks.rs lines 34-57): builds the transaction's segment
buffer and the `vectors` list; a failing `new_seg.insert(&txn)` early-returns
(error) with the events so far, discarding the buffer. -/
def segLoop (o : Oracle) (v5 : String → String → String) (documentUuid : String) :
    List (Nat × EmbedResult) → List SegmentRow × List VectorData × List Event →
    Except (List Event) (List SegmentRow × List VectorData × List Event)
  | [], acc => Except.ok acc
  | (idx, e) :: rest, (buf, vecs, evs) =>
    let evs' := evs ++ [Event.insertSegmentInTxn idx]
    if o.insertSegOk idx then
      segLoop o v5 documentUuid rest
        (buf ++ [mkSegmentRow v5 documentUuid idx e],
         vecs ++ [mkVectorData v5 documentUuid idx e], evs')
    else Except.error evs'

/-- `process_embeddings` (src/lib/worker/src/tasks.rs lines 9-66), step by
step: encode; `document.insert(&db)` — on the plain connection, not in any
transaction; `db.begin()`; the segment loop inserting into the transaction;
`client.add_vectors(vectors)` whose error is only logged; `txn.commit()`.
Every `?` early-returns with the state reached so far; a failed commit
drops the transaction's segment buffer but keeps the document row and any
vector-store entries. -/
def process_embeddings (o : Oracle) (v5 : String → String → String)
    (task : TaskModel) (db : DbState) (vs : VecStoreState) : RunResult :=
  let evs0 := [Event.encodeCall]
  match o.encode with
  | Option.none => { succeeded := false, db := db, vs := vs, events := evs0 }
  | Option.some embeddings =>
    let document := document_from_task v5 task
    let evs1 := evs0 ++ [Event.insertDocumentOnDb]
    if o.insertDocOk = false then
      { succeeded := false, db := db, vs := vs, events := evs1 }
    else
      let db1 : DbState := { db with documents := db.documents ++ [document] }
      let evs2 := evs1 ++ [Event.txnBegin]
      if o.beginOk = false then
        { succeeded := false, db := db1, vs := vs, events := evs2 }
      else
        match segLoop o v5 document.uuid embeddings.enum ([], [], evs2) with
        | Except.error evs => { succeeded := false, db := db1, vs := vs, events := evs }
        | Except.ok (buf, vecs, evs3) =>
          let evs4 := evs3 ++ [Event.addVectorsCall vecs.length]
          let vsEvs : VecStoreState × List Event :=
            if o.addVectorsOk then ({ entries := vs.entries ++ vecs }, evs4)
            else (vs, evs4 ++ [Event.logVectorError])
          if o.commitOk then
            { succeeded := true
              db := { db1 with segments := db1.segments ++ buf }
              vs := vsEvs.1
              events := vsEvs.2 ++ [Event.txnCommit] }
          else
            { succeeded := false, db := db1, vs := vsEvs.1, events := vsEvs.2 }

/-- `_process_embeddings` (src/lib/worker/src/lib.rs lines 224-288): the
same body as `process_embeddings`, followed by `queue::mark_done` once the
commit succeeded. -/
def worker_process_embeddings (o : Oracle) (v5 : String → String → String)
    (task : TaskModel) (db : DbState) (vs : VecStoreState) : RunResult :=
  let r := process_embeddings o v5 task db vs
  if r.succeeded then { r with events := r.events ++ [Event.markDoneCall] } else r

/-- Result of one `WorkerCommand::GenerateEmbedding` dispatch: the final
queue status of the task, the shared `num_active` counter, the stores, and
the event trace. -/
structure WorkerOut where
  taskStatus : JobStatus
  numActive : Int
  db : DbState
  vs : VecStoreState
  events : List Event
  deriving Repr

/-- The spawned body of the `WorkerCommand::GenerateEmbedding` arm of
`run_workers` (src/lib/worker/src/lib.rs lines 178-208): connect to the
vector store (on error: log and return, without touching `num_active`);
run `_process_embeddings`; on `Err` only `log::error!` runs — there is no
queue update — and finally `num_active` is decremented.  `mark_done` inside
`_process_embeddings` is what moves the row to Completed, surfaced here as
`taskStatus`; `status0` is the status the row had when dispatched
(Processing, set by `check_for_jobs`). -/
def handle_generate_embedding (connectOk : Bool) (o : Oracle)
    (v5 : String → String → String) (task : TaskModel) (status0 : JobStatus)
    (db : DbState) (vs : VecStoreState) (numActive : Int) : WorkerOut :=
  let evs0 := [Event.connectVectorStore]
  if connectOk = false then
    { taskStatus := status0, numActive := numActive, db := db, vs := vs
      events := evs0 ++ [Event.logConnectError] }
  else
    let r := worker_process_embeddings o v5 task db vs
    if r.succeeded then
      { taskStatus := JobStatus.Completed, numActive := numActive - 1
        db := r.db, vs := r.vs
        events := evs0 ++ r.events ++ [Event.decrementNumActive] }
    else
      { taskStatus := status0, numActive := numActive - 1
        db := r.db, vs := r.vs
        events := evs0 ++ r.events ++ [Event.logProcessError, Event.decrementNumActive] }

/-- Is there an occurrence of `a` strictly before the first occurrence of
`b` in the trace, with `b` occurring after it? -/
def occursBefore (a b : Event) : List Event → Bool
  | [] => false
  | e :: rest =>
    if e = b then false
    else if e = a then rest.contains b
    else occursBefore a b rest

/-- The segment rows the ingest loop builds for an enumerated embedding
list (what a successful commit appends to the segments table). -/
def segRowsOf (v5 : String → String → String) (documentUuid : String)
    (l : List (Nat × EmbedResult)) : List SegmentRow :=
  l.map fun p => mkSegmentRow v5 documentUuid p.1 p.2

/-- Oracle of a fully successful one-segment run. -/
def okOracle : Oracle :=
  { encode := Option.some [{ content := "hello world", vector := [1, 2] }]
    insertDocOk := true
    beginOk := true
    insertSegOk := fun _ => true
    addVectorsOk := true
    commitOk := true }

/-- Oracle of a run whose second segment insert fails inside the
transaction. -/
def failSegOracle : Oracle :=
  { okOracle with
    encode := Option.some
      [{ content := "s0", vector := [1] }, { content := "s1", vector := [2] }]
    insertSegOk := fun i => i == 0 }

/-- Oracle of a run whose embedder call fails. -/
def failEncodeOracle : Oracle :=
  { okOracle with encode := Option.none }

/-- A concrete v5 stand-in used in closed evaluations: the name itself. -/
def v5id : String → String → String := fun _ name => name

/-- A concrete v5 stand-in that keeps the namespace visible. -/
def v5cat : String → String → String := fun ns name => ns ++ ":" ++ name

/-- A concrete claimed task. -/
def demoTask : TaskModel := { id := 1, content := "content" }

/-- Empty metadata store. -/
def db0 : DbState := { documents := [], segments := [] }

/-- Empty vector store. -/
def vs0 : VecStoreState := { entries := [] }

/-- One `mark_failed` call keeps `num_retries` at most `MAX_RETRIES + 1`. -/
theorem mark_failed_step_bound (retry : Bool) (e : Option TaskError) (t : TaskRow)
    (h : t.num_retries ≤ MAX_RETRIES + 1) :
    (mark_failed retry e t).num_retries ≤ MAX_RETRIES + 1 := by
  unfold mark_failed at *
  split
  next hc =>
    simp only [MAX_RETRIES] at *
    omega
  next => simpa using h

/-- Any sequence of `mark_failed` calls keeps `num_retries` at most
`MAX_RETRIES + 1`. -/
theorem markFailedSeq_bound (calls : List (Bool × Option TaskError)) :
    ∀ t : TaskRow, t.num_retries ≤ MAX_RETRIES + 1 →
      (markFailedSeq calls t).num_retries ≤ MAX_RETRIES + 1 := by
  induction calls with
  | nil => intro t h; simpa [markFailedSeq] using h
  | cons c rest ih =>
    intro t h
    simp only [markFailedSeq, List.foldl_cons]
    exact ih (mark_failed c.1 c.2 t) (mark_failed_step_bound c.1 c.2 t h)

/-- C3 counterexample: a task that already has `num_retries = 5 = MAX_RETRIES`
is still re-queued by a retriable `mark_failed` (the code tests
`num_retries <= MAX_RETRIES`, not `<`), and its `num_retries` becomes 6,
exceeding `MAX_RETRIES` — refuting both the "only while num_retries < 5"
and the "never exceeds MAX_RETRIES = 5" parts of the claim. -/
theorem C3_counterexample :
    (mark_failed true Option.none
        { status := JobStatus.Processing, num_retries := 5, error := Option.none }).status
      = JobStatus.Queued ∧
    (mark_failed true Option.none
        { status := JobStatus.Processing, num_retries := 5, error := Option.none }).num_retries
      = 6 ∧
    ¬ ((5 : Int) < MAX_RETRIES) ∧
    MAX_RETRIES <
      (mark_failed true Option.none
        { status := JobStatus.Processing, num_retries := 5, error := Option.none }).num_retries := by
  decide

/-- C3 (amended): `mark_failed` re-queues exactly when `retry` holds and
`num_retries ≤ MAX_RETRIES` (so a task can be re-queued with
`num_retries` already equal to `MAX_RETRIES`), otherwise it marks the task
Failed; `num_retries` never decreases, and along any sequence of
`mark_failed` calls starting from a freshly enqueued task it never exceeds
`MAX_RETRIES + 1 = 6`. -/
theorem C3_amended_retry_bound :
    ∀ (retry : Bool) (e : Option TaskError) (t : TaskRow)
      (calls : List (Bool × Option TaskError)),
      ((mark_failed retry e t).status = JobStatus.Queued ↔
        retry = true ∧ t.num_retries ≤ MAX_RETRIES) ∧
      ((mark_failed retry e t).status = JobStatus.Failed ↔
        ¬(retry = true ∧ t.num_retries ≤ MAX_RETRIES)) ∧
      t.num_retries ≤ (mark_failed retry e t).num_retries ∧
      (markFailedSeq calls enqueuedTask).num_retries ≤ MAX_RETRIES + 1 := by
  intro retry e t calls
  refine ⟨?_, ?_, ?_, markFailedSeq_bound calls enqueuedTask (by simp [enqueuedTask, MAX_RETRIES])⟩
  · unfold mark_failed
    split
    next hc => simpa using hc
    next hc => simpa using hc
  · unfold mark_failed
    split
    next hc => simpa using hc
    next hc => simpa using hc
  · unfold mark_failed
    split
    next => simp
    next => simp

/-- C5 counterexample: with two Queued rows sharing `created_at = 10`, the
embedded claim-one statement (whose only ordering is
`ORDER BY created_at ASC LIMIT 1`) admits claiming the row with the larger
id 2 even though the equally old row with id 1 is present — so ties are not
broken by ascending id as the claim states. -/
theorem C5_counterexample :
    check_for_jobs tieQueue (Option.some 2) (markProcessing tieQueue 2) ∧
    ({ id := 1, status := JobStatus.Queued, created_at := 10 } : QueueRow) ∈ tieQueue ∧
    ({ id := 2, status := JobStatus.Queued, created_at := 10 } : QueueRow) ∈ tieQueue ∧
    (1 : Int) < 2 := by
  refine ⟨?_, by decide, by decide, by decide⟩
  exact check_for_jobs.claimRow tieQueue
    { id := 2, status := JobStatus.Queued, created_at := 10 } (by decide) rfl (by decide)

/-- C5 (amended): `check_for_jobs` atomically claims a single Queued row of
minimal `created_at` (the tie among rows sharing `created_at` is broken in
an engine-dependent, unspecified way, not necessarily by ascending id),
transitions exactly the claimed id to Processing leaving every other row
unchanged, and returns none exactly when no Queued row exists. -/
theorem C5_amended_claim_one :
    ∀ (s : List QueueRow) (j : Option Int) (s' : List QueueRow),
      check_for_jobs s j s' → claim_one_post s j s' := by
  intro s j s' h
  cases h with
  | noneFound hn =>
    refine ⟨fun _ => ⟨rfl, hn⟩, ?_⟩
    intro i hi
    exact absurd hi (by simp)
  | claimRow r hmem hq hmin =>
    constructor
    · intro h0
      exact absurd h0 (by simp)
    · intro i hi
      have hii := Option.some.inj hi
      subst hii
      refine ⟨⟨r, hmem, rfl, hq, hmin⟩, rfl, ?_, ?_⟩
      · intro r' hr' hne
        have hmap : (if r'.id = r.id then { r' with status := JobStatus.Processing } else r')
            ∈ markProcessing s r.id := by
          unfold markProcessing
          exact List.mem_map_of_mem _ hr'
        simpa [hne] using hmap
      · intro r' hr' heq
        have hmap : (if r'.id = r.id then { r' with status := JobStatus.Processing } else r')
            ∈ markProcessing s r.id := by
          unfold markProcessing
          exact List.mem_map_of_mem _ hr'
        simpa [heq] using hmap

/-- C5 witness: the amended theorem applied to the concrete one-row queue. -/
theorem C5_amended_witness :
    check_for_jobs demoQueue (Option.some 1) (markProcessing demoQueue 1) ∧
    claim_one_post demoQueue (Option.some 1) (markProcessing demoQueue 1) := by
  have h : check_for_jobs demoQueue (Option.some 1) (markProcessing demoQueue 1) :=
    check_for_jobs.claimRow demoQueue
      { id := 1, status := JobStatus.Queued, created_at := 0 } (by decide) rfl (by decide)
  exact ⟨h, C5_amended_claim_one demoQueue (Option.some 1) (markProcessing demoQueue 1) h⟩

/-- C6: under the tokenizer `tlChar3000` the text "a b c" exceeds the large
budget, and `truncate_text` returns "abc" — the words concatenated with the
delimiting spaces dropped (`buffer.push_str(txt)` never re-adds the space).
"abc" is not a whitespace-delimited prefix of "a b c" at all, while the
prefix "a b" fits the budget and should have been returned.  With the real
cl100k tokenizer the same happens to any multi-word text over
`MAX_16K_TOKENS`. -/
theorem C6_truncate_drops_spaces :
    truncate_text tlChar3000 "a b c" = ("abc", OpenAIModel.GPT35_16K) ∧
    "abc" ∉ ws_prefixes "a b c" ∧
    "a b" ∈ ws_prefixes "a b c" ∧
    tlChar3000 "a b" ≤ MAX_16K_TOKENS ∧
    MAX_16K_TOKENS < tlChar3000 "a b c" := by
  decide

/-- C7 counterexample: the single "word" "XX" (no whitespace) counts 28474
tokens under `tlCountX`, which exceeds `MAX_16K_TOKENS = 14236`, yet
`segment` returns it as one chunk (plus a leading empty chunk): `split_text`
splits only at spaces by byte size and never checks chunk token counts, so
the returned list contains a chunk over the budget. -/
theorem C7_counterexample :
    MAX_16K_TOKENS < tlCountX "XX" ∧
    (segment tlCountX "XX").1 = ["", "XX"] ∧
    ¬ (∀ chunk ∈ (segment tlCountX "XX").1, tlCountX chunk ≤ MAX_16K_TOKENS) := by
  decide

/-- C7 (amended): for any tokenizer, a text of at most `MAX_16K_TOKENS`
tokens (hence in particular at most `MAX_TOKENS`) is returned as exactly one
chunk identical to the input, and a text over `MAX_16K_TOKENS` is chunked by
`split_text` with the large budget — a whitespace/byte-length split whose
chunks are not guaranteed to fit the token budget. -/
theorem C7_amended_segment_chunks :
    ∀ (tl : String → Nat) (text : String),
      (segment tl text).1 =
        if tl text ≤ MAX_16K_TOKENS then [text] else split_text tl text MAX_16K_TOKENS := by
  intro tl text
  unfold segment split_text
  by_cases h1 : tl text < MAX_TOKENS
  · have h2 : tl text ≤ MAX_16K_TOKENS := by
      simp only [MAX_TOKENS, MAX_16K_TOKENS] at *
      omega
    simp [h1, h2]
  · by_cases h2 : MAX_TOKENS < tl text ∧ tl text < MAX_16K_TOKENS
    · simp [h1, h2, le_of_lt h2.2]
    · by_cases h3 : tl text ≤ MAX_16K_TOKENS
      · simp [h1, h2, h3]
      · simp [h1, h2, h3]

/-- C8 counterexample: `HnswStore::delete` on a concrete id does not return
an error value (in particular not `Unsupported`) and does not succeed: it
panics via `unimplemented!`. -/
theorem C8_counterexample :
    isErrOutcome (hnsw_delete "segment-uuid") = false ∧
    isPanicOutcome (hnsw_delete "segment-uuid") = true ∧
    hnsw_delete "segment-uuid" ≠ StoreOutcome.ok := by
  decide

/-- C8 (amended): for every id, `delete` on the LocalGraph backend panics
with the `unimplemented!` message — it aborts the calling task instead of
returning the distinct Unsupported/NotSupported error (or succeeding). -/
theorem C8_amended_delete_panics :
    ∀ id_ : String,
      hnsw_delete id_ =
        StoreOutcome.panicked
          "not implemented: Currently hnsw_lib does not support removing a single point" ∧
      isErrOutcome (hnsw_delete id_) = false ∧
      hnsw_delete id_ ≠ StoreOutcome.ok := by
  intro i
  refine ⟨rfl, rfl, by simp [hnsw_delete]⟩

/-- C9: the document uuid is exactly the spec's v5(NAMESPACE, str(task.id))
and the segment uuid exactly the spec's
v5(NAMESPACE, "{document_uuid}-{idx}"); both are pure functions of those
inputs, hence identical across runs for equal inputs. -/
theorem C9_uuid_determinism :
    ∀ (v5 : String → String → String) (t t' : TaskModel) (d d' : String) (i i' : Nat),
      t.id = t'.id → d = d' → i = i' →
      (document_from_task v5 t).uuid = spec_document_uuid v5 t.id ∧
      segment_uuid v5 d i = spec_segment_uuid v5 d i ∧
      (document_from_task v5 t).uuid = (document_from_task v5 t').uuid ∧
      segment_uuid v5 d i = segment_uuid v5 d' i' := by
  intro v5 t t' d d' i i' h1 h2 h3
  subst h2
  subst h3
  exact ⟨rfl, rfl, by simp [document_from_task, h1], rfl⟩

/-- C9 witness: the derivation and determinism facts at task id 7, document
uuid "doc-uuid" and segment index 3, under a concrete v5 stand-in. -/
theorem C9_uuid_determinism_witness :
    (({ id := 7, content := "hello" } : TaskModel).id
        = ({ id := 7, content := "world" } : TaskModel).id) ∧
    ((document_from_task v5cat { id := 7, content := "hello" }).uuid
        = spec_document_uuid v5cat 7 ∧
      segment_uuid v5cat "doc-uuid" 3 = spec_segment_uuid v5cat "doc-uuid" 3 ∧
      (document_from_task v5cat { id := 7, content := "hello" }).uuid
        = (document_from_task v5cat { id := 7, content := "world" }).uuid ∧
      segment_uuid v5cat "doc-uuid" 3 = segment_uuid v5cat "doc-uuid" 3) :=
  ⟨rfl, C9_uuid_determinism v5cat { id := 7, content := "hello" }
    { id := 7, content := "world" } "doc-uuid" "doc-uuid" 3 3 rfl rfl rfl⟩

/-- C10: when the request carries no json_schema, the message list passed to
`chat_completion` is `quick_question(query)` — built from the query alone —
so two requests with the same query and different text produce identical
prompts (the chosen model may differ, but the messages do not). -/
theorem C10_prompt_text_independent :
    ∀ (tl : String → Nat) (schemaOk : String → Bool) (sysTemplate : String)
      (render : String → String → String) (r1 r2 : AskRequest),
      r1.json_schema = Option.none → r2.json_schema = Option.none → r1.query = r2.query →
      (handle_extract_call tl schemaOk sysTemplate render r1).map Prod.snd
          = (handle_extract_call tl schemaOk sysTemplate render r2).map Prod.snd ∧
      (handle_extract_call tl schemaOk sysTemplate render r1).map Prod.snd
          = Option.some (quick_question r1.query) := by
  intro tl so st re r1 r2 h1 h2 hq
  simp only [handle_extract_call, h1, h2, hq, Option.map]
  exact ⟨trivial, trivial⟩

/-- C10 witness: two concrete schemaless requests sharing the query but with
different texts yield the same messages, namely `quick_question` of the
query. -/
theorem C10_prompt_text_independent_witness :
    (({ text := "long submitted text", query := "what?", json_schema := Option.none }
        : AskRequest).json_schema = Option.none) ∧
    (({ text := "short", query := "what?", json_schema := Option.none }
        : AskRequest).json_schema = Option.none) ∧
    ((handle_extract_call (fun s => s.length) (fun _ => true) "sys" (fun _ _ => "p")
          { text := "long submitted text", query := "what?", json_schema := Option.none }).map
        Prod.snd
      = (handle_extract_call (fun s => s.length) (fun _ => true) "sys" (fun _ _ => "p")
          { text := "short", query := "what?", json_schema := Option.none }).map Prod.snd ∧
      (handle_extract_call (fun s => s.length) (fun _ => true) "sys" (fun _ _ => "p")
          { text := "long submitted text", query := "what?", json_schema := Option.none }).map
          Prod.snd
        = Option.some (quick_question "what?")) :=
  ⟨rfl, rfl, C10_prompt_text_independent (fun s => s.length) (fun _ => true) "sys"
    (fun _ _ => "p") { text := "long submitted text", query := "what?", json_schema := Option.none }
    { text := "short", query := "what?", json_schema := Option.none } rfl rfl rfl⟩

/-- The segment-insert loop only appends `insertSegmentInTxn` events, so it
never introduces a commit event on its error exit. -/
theorem segLoop_error_no_commit (o : Oracle) (v5 : String → String → String) (d : String) :
    ∀ (l : List (Nat × EmbedResult)) (buf : List SegmentRow) (vecs : List VectorData)
      (evs evs' : List Event),
      segLoop o v5 d l (buf, vecs, evs) = Except.error evs' →
      Event.txnCommit ∉ evs → Event.txnCommit ∉ evs' := by
  intro l
  induction l with
  | nil =>
    intro buf vecs evs evs' h _
    exact absurd h (by simp [segLoop])
  | cons hd tl ih =>
    intro buf vecs evs evs' h hnc
    obtain ⟨idx, e⟩ := hd
    simp only [segLoop] at h
    by_cases hok : o.insertSegOk idx
    · rw [if_pos hok] at h
      exact ih _ _ _ _ h (by simp [List.mem_append, hnc])
    · rw [if_neg hok] at h
      injection h with h'
      subst h'
      simp [List.mem_append, hnc]

/-- The segment-insert loop never introduces a commit event on its success
exit either. -/
theorem segLoop_ok_no_commit (o : Oracle) (v5 : String → String → String) (d : String) :
    ∀ (l : List (Nat × EmbedResult)) (buf buf' : List SegmentRow)
      (vecs vecs' : List VectorData) (evs evs' : List Event),
      segLoop o v5 d l (buf, vecs, evs) = Except.ok (buf', vecs', evs') →
      Event.txnCommit ∉ evs → Event.txnCommit ∉ evs' := by
  intro l
  induction l with
  | nil =>
    intro buf buf' vecs vecs' evs evs' h hnc
    simp only [segLoop, Except.ok.injEq, Prod.mk.injEq] at h
    obtain ⟨-, -, h3⟩ := h
    subst h3
    exact hnc
  | cons hd tl ih =>
    intro buf buf' vecs vecs' evs evs' h hnc
    obtain ⟨idx, e⟩ := hd
    simp only [segLoop] at h
    by_cases hok : o.insertSegOk idx
    · rw [if_pos hok] at h
      exact ih _ _ _ _ _ _ h (by simp [List.mem_append, hnc])
    · rw [if_neg hok] at h
      exact absurd h (by simp)

/-- On success the segment-insert loop has appended exactly the rows of
`segRowsOf` for the processed list. -/
theorem segLoop_ok_segments (o : Oracle) (v5 : String → String → String) (d : String) :
    ∀ (l : List (Nat × EmbedResult)) (buf buf' : List SegmentRow)
      (vecs vecs' : List VectorData) (evs evs' : List Event),
      segLoop o v5 d l (buf, vecs, evs) = Except.ok (buf', vecs', evs') →
      buf' = buf ++ segRowsOf v5 d l := by
  intro l
  induction l with
  | nil =>
    intro buf buf' vecs vecs' evs evs' h
    simp only [segLoop, Except.ok.injEq, Prod.mk.injEq] at h
    obtain ⟨h1, -, -⟩ := h
    simp [segRowsOf, h1]
  | cons hd tl ih =>
    intro buf buf' vecs vecs' evs evs' h
    obtain ⟨idx, e⟩ := hd
    simp only [segLoop] at h
    by_cases hok : o.insertSegOk idx
    · rw [if_pos hok] at h
      have := ih _ _ _ _ _ _ h
      simp [segRowsOf, this, List.append_assoc]
    · rw [if_neg hok] at h
      exact absurd h (by simp)

/-- If `b` is absent from `pre` and present in `suf`, then `a` occurs before
`b` in `pre ++ a :: suf`. -/
theorem occursBefore_of_decomp (a b : Event) (hne : a ≠ b) :
    ∀ (pre suf : List Event), b ∉ pre → b ∈ suf →
      occursBefore a b (pre ++ a :: suf) = true := by
  intro pre
  induction pre with
  | nil =>
    intro suf _ hsuf
    simp only [List.nil_append, occursBefore]
    rw [if_neg (by simpa using hne)]
    simp [List.contains, List.elem_iff, hsuf]
  | cons p pre ih =>
    intro suf hpre hsuf
    have hpb : p ≠ b := by
      intro hcontra
      exact hpre (by simp [hcontra])
    have hpre' : b ∉ pre := fun hc => hpre (by simp [hc])
    simp only [List.cons_append, occursBefore]
    rw [if_neg hpb]
    by_cases hpa : p = a
    · rw [if_pos hpa]
      have : b ∈ pre ++ a :: suf := by simp [List.mem_append, hsuf]
      simpa [List.contains, List.elem_iff] using this
    · rw [if_neg hpa]
      exact ih suf hpre' hsuf

/-- In every run of `process_embeddings` whose trace contains a commit, the
trace decomposes as a commit-free prefix, then the `add_vectors` call, then
a suffix containing the commit: the vector-store bulk insert happens
strictly before the transaction commit. -/
theorem process_embeddings_commit_decomp (o : Oracle) (v5 : String → String → String)
    (task : TaskModel) (db : DbState) (vs : VecStoreState) :
    Event.txnCommit ∈ (process_embeddings o v5 task db vs).events →
    ∃ n pre suf, (process_embeddings o v5 task db vs).events
        = pre ++ Event.addVectorsCall n :: suf ∧
      Event.txnCommit ∉ pre ∧ Event.txnCommit ∈ suf := by
  simp only [process_embeddings, List.append_assoc, List.singleton_append, List.cons_append,
    List.nil_append]
  cases henc : o.encode with
  | none =>
    intro hmem
    simp at hmem
  | some es =>
    simp only []
    by_cases hdoc : o.insertDocOk = false
    · simp only [if_pos hdoc]
      intro hmem
      simp at hmem
    · simp only [if_neg hdoc]
      by_cases hbeg : o.beginOk = false
      · simp only [if_pos hbeg]
        intro hmem
        simp at hmem
      · simp only [if_neg hbeg]
        cases hseg : segLoop o v5 (document_from_task v5 task).uuid es.enum
            ([], [], [Event.encodeCall, Event.insertDocumentOnDb, Event.txnBegin]) with
        | error evs =>
          intro hmem
          simp at hmem
          exact absurd hmem
            (segLoop_error_no_commit o v5 (document_from_task v5 task).uuid es.enum _ _ _ _ hseg
              (by decide))
        | ok acc =>
          obtain ⟨buf, vecs, evs3⟩ := acc
          have hnc3 : Event.txnCommit ∉ evs3 :=
            segLoop_ok_no_commit o v5 (document_from_task v5 task).uuid es.enum _ _ _ _ _ _ hseg
              (by decide)
          simp only []
          by_cases hadd : o.addVectorsOk = true
          · simp only [if_pos hadd]
            by_cases hcom : o.commitOk = true
            · simp only [if_pos hcom]
              intro _
              refine ⟨vecs.length, evs3, [Event.txnCommit], ?_, hnc3, by simp⟩
              simp
            · simp only [if_neg hcom]
              intro hmem
              simp [List.mem_append, hnc3] at hmem
          · simp only [if_neg hadd]
            by_cases hcom : o.commitOk = true
            · simp only [if_pos hcom]
              intro _
              refine ⟨vecs.length, evs3, [Event.logVectorError, Event.txnCommit], ?_, hnc3, by simp⟩
              simp
            · simp only [if_neg hcom]
              intro hmem
              simp [List.mem_append, hnc3] at hmem

/-- C1 counterexample: in the fully successful one-segment ingest run the
trace is encode, document insert, txn begin, segment insert, `add_vectors`,
commit, `mark_done` — the vector-store bulk insert occurs at index 4,
strictly before the commit at index 5, refuting "the vector-store insert
never precedes the commit". -/
theorem C1_counterexample :
    (worker_process_embeddings okOracle v5id demoTask db0 vs0).events =
      [Event.encodeCall, Event.insertDocumentOnDb, Event.txnBegin,
       Event.insertSegmentInTxn 0, Event.addVectorsCall 1, Event.txnCommit,
       Event.markDoneCall] ∧
    occursBefore (Event.addVectorsCall 1) Event.txnCommit
      (worker_process_embeddings okOracle v5id demoTask db0 vs0).events = true ∧
    (worker_process_embeddings okOracle v5id demoTask db0 vs0).succeeded = true := by
  decide

/-- C1 (amended): in `_process_embeddings` the `add_vectors` bulk insert is
called after the segment inserts but before `txn.commit()`: whenever the
run's trace contains the commit event, an `addVectorsCall` occurs strictly
before it. -/
theorem C1_amended_insert_before_commit :
    ∀ (o : Oracle) (v5 : String → String → String) (task : TaskModel)
      (db : DbState) (vs : VecStoreState),
      Event.txnCommit ∈ (worker_process_embeddings o v5 task db vs).events →
      ∃ n, occursBefore (Event.addVectorsCall n) Event.txnCommit
          (worker_process_embeddings o v5 task db vs).events = true := by
  intro o v5 task db vs hmem
  unfold worker_process_embeddings at hmem ⊢
  by_cases hs : (process_embeddings o v5 task db vs).succeeded = true
  · simp only [if_pos hs] at hmem ⊢
    simp only [List.mem_append] at hmem
    have hmem' : Event.txnCommit ∈ (process_embeddings o v5 task db vs).events := by
      rcases hmem with h | h
      · exact h
      · simp at h
    obtain ⟨n, pre, suf, hdec, hpre, hsuf⟩ :=
      process_embeddings_commit_decomp o v5 task db vs hmem'
    refine ⟨n, ?_⟩
    rw [hdec]
    rw [List.append_assoc, List.cons_append]
    exact occursBefore_of_decomp (Event.addVectorsCall n) Event.txnCommit (by simp) pre
      (suf ++ [Event.markDoneCall]) hpre (by simp [hsuf])
  · simp only [if_neg hs] at hmem ⊢
    obtain ⟨n, pre, suf, hdec, hpre, hsuf⟩ :=
      process_embeddings_commit_decomp o v5 task db vs hmem
    refine ⟨n, ?_⟩
    rw [hdec]
    exact occursBefore_of_decomp (Event.addVectorsCall n) Event.txnCommit (by simp) pre suf
      hpre hsuf

/-- C1 witness: the amended ordering fact applied to the fully successful
one-segment run. -/
theorem C1_amended_witness :
    Event.txnCommit ∈ (worker_process_embeddings okOracle v5id demoTask db0 vs0).events ∧
    ∃ n, occursBefore (Event.addVectorsCall n) Event.txnCommit
        (worker_process_embeddings okOracle v5id demoTask db0 vs0).events = true :=
  ⟨by decide, C1_amended_insert_before_commit okOracle v5id demoTask db0 vs0 (by decide)⟩

/-- C2 counterexample: a run whose second segment insert fails inside the
transaction returns an error, never commits, yet leaves the Document row
visible in the metadata store (it was inserted on the plain connection,
outside the transaction) while no segment row is visible — refuting "a
failure before commit leaves neither the document nor any segment
visible". -/
theorem C2_counterexample :
    (process_embeddings failSegOracle v5id demoTask db0 vs0).succeeded = false ∧
    Event.txnCommit ∉ (process_embeddings failSegOracle v5id demoTask db0 vs0).events ∧
    (process_embeddings failSegOracle v5id demoTask db0 vs0).db.documents =
      [document_from_task v5id demoTask] ∧
    (process_embeddings failSegOracle v5id demoTask db0 vs0).db.segments = [] := by
  decide

/-- C2 (amended): the Segment rows alone are transactional — every run
leaves the segments table either unchanged or extended by exactly all the
segment rows of the encoded embeddings (all-or-none) — while the Document
row is inserted outside the transaction: the documents table is either
unchanged or extended by the document row, independently of whether the
segments were committed. -/
theorem C2_amended_segment_atomicity :
    ∀ (o : Oracle) (v5 : String → String → String) (task : TaskModel)
      (db : DbState) (vs : VecStoreState),
      ((process_embeddings o v5 task db vs).db.segments = db.segments ∨
        ∃ es, o.encode = Option.some es ∧
          (process_embeddings o v5 task db vs).db.segments =
            db.segments ++ segRowsOf v5 (document_from_task v5 task).uuid es.enum) ∧
      ((process_embeddings o v5 task db vs).db.documents = db.documents ∨
        (process_embeddings o v5 task db vs).db.documents =
          db.documents ++ [document_from_task v5 task]) := by
  intro o v5 task db vs
  simp only [process_embeddings, List.append_assoc, List.singleton_append, List.cons_append,
    List.nil_append]
  cases henc : o.encode with
  | none => exact ⟨Or.inl rfl, Or.inl rfl⟩
  | some es =>
    by_cases hdoc : o.insertDocOk = false
    · simp [if_pos hdoc]
    · simp only [if_neg hdoc]
      by_cases hbeg : o.beginOk = false
      · simp [if_pos hbeg]
      · simp only [if_neg hbeg]
        cases hseg : segLoop o v5 (document_from_task v5 task).uuid es.enum
            ([], [], [Event.encodeCall, Event.insertDocumentOnDb, Event.txnBegin]) with
        | error evs => simp
        | ok acc =>
          obtain ⟨buf, vecs, evs3⟩ := acc
          by_cases hcom : o.commitOk = true
          · simp only [if_pos hcom]
            have hb := segLoop_ok_segments o v5 (document_from_task v5 task).uuid es.enum
              _ _ _ _ _ _ hseg
            simp only [List.nil_append] at hb
            simp [hb]
          · simp [if_neg hcom]

/-- C4: a claimed Ingest task (status Processing) whose handler fails — here
the embedder call fails — is left in status Processing: the worker only
logs the error and decrements `num_active`; no `mark_failed` call appears
anywhere in the trace (the function is never called by the worker), so the
task neither re-enters the queue nor reaches Failed, contradicting the
claim. -/
theorem C4_failure_not_marked :
    (handle_generate_embedding true failEncodeOracle v5id demoTask JobStatus.Processing
        db0 vs0 1).taskStatus = JobStatus.Processing ∧
    (handle_generate_embedding true failEncodeOracle v5id demoTask JobStatus.Processing
        db0 vs0 1).numActive = 0 ∧
    Event.markFailedCall ∉
      (handle_generate_embedding true failEncodeOracle v5id demoTask JobStatus.Processing
        db0 vs0 1).events ∧
    (handle_generate_embedding true failEncodeOracle v5id demoTask JobStatus.Processing
        db0 vs0 1).events =
      [Event.connectVectorStore, Event.encodeCall, Event.logProcessError,
       Event.decrementNumActive] := by
  decide

end Memex
